import Mathlib

/-!
Verification of the RSS reader feed parser (src/rss_scraper.py).

The development shallowly embeds the function `rss_parser` of the repository.
The XML element trees produced by the external library
`xml.etree.ElementTree` are embedded as the inductive type `Element`
(tag, text, children); `fromstring` is an executable model of the
library entry point `ET.fromstring` restricted to the XML fragment the
feeds in this development use (nested tagged elements with text content,
optional self-closing tags, no attributes, no entities).  An element that
encloses no text has `text = none`, exactly as the library yields
`elem.text is None` there; error messages of the model are abstract
stand-ins for the library diagnostics, and the program wraps whatever
message the parse step produced.

Python-level behaviour is embedded explicitly: `pyStr` is Python string
formatting of an optional string (formatting `None` prints `None`),
`pyTruthy` is Python truthiness of an optional string, `pySliceTo`
is the Python prefix slice `xs[:n]` including its negative-index
semantics, and `PyExc` separates the exception kinds the program can
surface: the application-level wrapper `UnhandledException` raised by
the handler at the end of `rss_parser`, and `AttributeError`, which the
program never catches, arising from attribute access on a missing
(`None`) element.  `json.dumps(obj, indent=2, ensure_ascii=False)` is
embedded by `jdumps` for the bounded-depth documents the program builds.
-/

namespace RssScraper

/-- Embedded XML element: tag name, text before the first child (absent when
empty, as in ElementTree), and child elements in document order. -/
inductive Element where
  | mk : String → Option String → List Element → Element

/-- Tag name of an element. -/
def Element.tag : Element → String
  | .mk t _ _ => t

/-- Text content of an element, absent when the element encloses no text. -/
def Element.text : Element → Option String
  | .mk _ x _ => x

/-- Child elements in document order. -/
def Element.children : Element → List Element
  | .mk _ _ c => c

/-- Model of `elem.find(tag)`: first direct child with the given tag. -/
def Element.find (e : Element) (t : String) : Option Element :=
  e.children.find? (fun c => c.tag == t)

/-- Model of `elem.findall(tag)`: all direct children with the given tag. -/
def Element.findall (e : Element) (t : String) : List Element :=
  e.children.filter (fun c => c.tag == t)

/-- Exception kinds the program can surface: the application wrapper raised
by the handler in `rss_parser`, and an uncaught attribute-access failure. -/
inductive PyExc where
  | UnhandledException : String → PyExc
  | AttributeError : String → PyExc
deriving DecidableEq

/-- Message of the attribute failure from calling `find` on `None`. -/
def noneFindMsg : String := "NoneType object has no attribute find"

/-- Message of the attribute failure from reading `text` on `None`. -/
def noneTextMsg : String := "NoneType object has no attribute text"

/-- Whitespace test used by the XML model (space, tab, newline, return). -/
def isSpaceChar (c : Char) : Bool :=
  c.toNat == 32 || c.toNat == 9 || c.toNat == 10 || c.toNat == 13

/-- Characters accepted in a tag name by the XML model. -/
def isNameChar (c : Char) : Bool :=
  let n := c.toNat
  (97 ≤ n && n ≤ 122) || (65 ≤ n && n ≤ 90) || (48 ≤ n && n ≤ 57) ||
    n == 95 || n == 45 || n == 58

/-- Longest prefix of name characters, with the rest of the input. -/
def takeName : List Char → List Char × List Char
  | [] => ([], [])
  | c :: cs =>
    if isNameChar c then
      match takeName cs with
      | (n, r) => (c :: n, r)
    else ([], c :: cs)

/-- Text content up to the next markup character, with the rest. -/
def takeText : List Char → List Char × List Char
  | [] => ([], [])
  | c :: cs =>
    if c == '<' then ([], c :: cs)
    else
      match takeText cs with
      | (t, r) => (c :: t, r)

/-- Recursive-descent state: about to parse one element, or inside an open
element collecting its text and children. -/
inductive PMode where
  | elem : PMode
  | kids : String → Option String → List Element → PMode

/-- Fuel-indexed recursive-descent XML parse step, modelling the external
XML library on the fragment described in the file header. -/
def parseRun : Nat → PMode → List Char → Except String (Element × List Char)
  | 0, _, _ => .error "no element found"
  | _ + 1, PMode.elem, [] => .error "no element found"
  | fuel + 1, PMode.elem, c :: cs =>
    if c == '<' then
      match takeName cs with
      | ([], _) => .error "syntax error"
      | (nm, rest) =>
        match rest with
        | '/' :: '>' :: rest2 => .ok (Element.mk (String.mk nm) none [], rest2)
        | '>' :: rest2 => parseRun fuel (PMode.kids (String.mk nm) none []) rest2
        | _ => .error "syntax error"
    else .error "syntax error"
  | fuel + 1, PMode.kids tag text children, input =>
    match takeText input with
    | (t, rest) =>
      let text2 := if children.isEmpty && !t.isEmpty then some (String.mk t) else text
      match rest with
      | [] => .error "no element found"
      | '<' :: '/' :: r =>
        match takeName r with
        | (nm, r2) =>
          match r2 with
          | '>' :: r3 =>
            if String.mk nm == tag then .ok (Element.mk tag text2 children.reverse, r3)
            else .error "mismatched tag"
          | _ => .error "syntax error"
      | _ =>
        match parseRun fuel PMode.elem rest with
        | .error e => .error e
        | .ok (child, r2) => parseRun fuel (PMode.kids tag text2 (child :: children)) r2

/-- Model of `ET.fromstring`: parse a whole document, allowing surrounding
whitespace, and reject trailing junk. -/
def fromstring (xml : String) : Except String Element :=
  let cs := xml.data.dropWhile isSpaceChar
  match parseRun (2 * cs.length + 4) PMode.elem cs with
  | .error e => .error e
  | .ok (el, rest) =>
    if (rest.dropWhile isSpaceChar).isEmpty then .ok el
    else .error "junk after document element"

/-- Python string formatting of an optional string: `None` prints `None`. -/
def pyStr : Option String → String
  | none => "None"
  | some s => s

/-- Python truthiness of an optional string: `None` and the empty string are
falsy. -/
def pyTruthy : Option String → Bool
  | none => false
  | some s => !s.isEmpty

/-- Optional string collapsed to a plain string, empty when absent. -/
def strOf : Option String → String
  | none => ""
  | some s => s

/-- Python prefix slice `xs[:n]`, including negative-index semantics:
a negative bound counts from the end of the list, clamped at zero. -/
def pySliceTo {α : Type} (l : List α) (n : Int) : List α :=
  l.take (if n < 0 then ((l.length : Int) + n).toNat else n.toNat)

/-- Lines 43 and 44 of the source: apply the optional limit as a slice. -/
def applyLimit (l : List Element) : Option Int → List Element
  | none => l
  | some n => pySliceTo l n

/-- Line 41 and line 91 of the source: texts of `category` children that are
truthy (present and non-empty), in document order. -/
def catTexts (e : Element) : List String :=
  ((e.findall "category").filterMap Element.text).filter (fun s => !s.isEmpty)

/-- Lines 56 to 59 and 87 to 93 of the source: the text of a named child,
the empty string when the child is absent. -/
def fieldText (item : Element) (t : String) : Option String :=
  match item.find t with
  | none => some ""
  | some e => e.text

/-- JSON value tree for the documents the program builds. -/
inductive JVal where
  | null : JVal
  | str : String → JVal
  | arr : List JVal → JVal
  | obj : List (String × JVal) → JVal

/-- Optional string as a JSON value: `None` serializes as `null`. -/
def optJ : Option String → JVal
  | none => JVal.null
  | some s => JVal.str s

/-- The conditional expression pattern used for every JSON field: the text of
the element when present (possibly `null`), the empty string when absent. -/
def jfield : Option Element → JVal
  | none => JVal.str ""
  | some e => optJ e.text

/-- Lines 55 to 60 of the source: the JSON object built for one item. -/
def itemJson (item : Element) : JVal :=
  JVal.obj [("title", jfield (item.find "title")),
            ("pubDate", jfield (item.find "pubDate")),
            ("link", jfield (item.find "link")),
            ("description", jfield (item.find "description"))]

/-- Lines 48 to 61 of the source: the top-level JSON object. -/
def feedJson (title link : Option String) (channel : Element)
    (items : List Element) : JVal :=
  JVal.obj [("title", optJ title),
            ("link", optJ link),
            ("description", jfield (channel.find "description")),
            ("items", JVal.arr (items.map itemJson))]

/-- Keys of a JSON object, in serialization order. -/
def jkeys : JVal → List String
  | JVal.obj fs => fs.map Prod.fst
  | _ => []

/-- Value stored under a key of a JSON object. -/
def jlookup : JVal → String → Option JVal
  | JVal.obj fs, k => (fs.find? (fun kv => kv.1 == k)).map (fun kv => kv.2)
  | _, _ => none

/-- Lower-case hexadecimal digit. -/
def hexDigit (n : Nat) : Char :=
  if n < 10 then Char.ofNat (48 + n) else Char.ofNat (87 + n)

/-- JSON string escaping with `ensure_ascii=False`: quotes, backslashes and
control characters are escaped, everything else is emitted literally. -/
def escChar (c : Char) : String :=
  let n := c.toNat
  if n == 34 then "\\\""
  else if n == 92 then "\\\\"
  else if n == 10 then "\\n"
  else if n == 9 then "\\t"
  else if n == 13 then "\\r"
  else if n == 8 then "\\b"
  else if n == 12 then "\\f"
  else if n < 32 then String.mk ['\\', 'u', '0', '0', hexDigit (n / 16), hexDigit (n % 16)]
  else String.singleton c

/-- JSON string literal. -/
def jstrLit (s : String) : String :=
  "\"" ++ String.join (s.data.map escChar) ++ "\""

/-- Indentation of the given width. -/
def pad (n : Nat) : String := String.mk (List.replicate n ' ')

/-- Fuel-indexed model of `json.dumps` with `indent=2` and
`ensure_ascii=False`, at the given current indentation. -/
def jdumpsVal : Nat → Nat → JVal → String
  | 0, _, _ => ""
  | fuel + 1, ind, v =>
    match v with
    | JVal.null => "null"
    | JVal.str s => jstrLit s
    | JVal.arr [] => "[]"
    | JVal.arr xs =>
      "[\n" ++
        String.intercalate ",\n"
          (xs.map (fun x => pad (ind + 2) ++ jdumpsVal fuel (ind + 2) x)) ++
        "\n" ++ pad ind ++ "]"
    | JVal.obj [] => "\x7b\x7d"
    | JVal.obj fs =>
      "\x7b\n" ++
        String.intercalate ",\n"
          (fs.map (fun kv => pad (ind + 2) ++ jstrLit kv.1 ++ ": " ++
            jdumpsVal fuel (ind + 2) kv.2)) ++
        "\n" ++ pad ind ++ "\x7d"

/-- Model of `json.dumps(v, indent=2, ensure_ascii=False)`; the documents
the program builds have depth at most four, so the fuel is ample. -/
def jdumps (v : JVal) : String := jdumpsVal 8 0 v

/-- One optional channel line, lines 70 to 84 of the source: emitted only
when the element is present with truthy text. -/
def optLine (o : Option Element) (pre : String) : List String :=
  match o with
  | none => []
  | some e =>
    match e.text with
    | none => []
    | some s => if s.isEmpty then [] else [pre ++ s]

/-- Lines 64 to 84 of the source: the channel part of the text output. -/
def channelHeader (channel : Element) (title link : Option String) : List String :=
  ["Feed: " ++ pyStr title, "Link: " ++ pyStr link]
  ++ (if (catTexts channel).isEmpty then []
      else ["Categories: " ++ String.intercalate ", " (catTexts channel)])
  ++ optLine (channel.find "lastBuildDate") "Last Build Date: "
  ++ optLine (channel.find "pubDate") "Publish Date: "
  ++ optLine (channel.find "language") "Language: "
  ++ optLine (channel.find "managingEditor") "Editor: "
  ++ optLine (channel.find "description") "Description: "

/-- Lines 86 to 106 of the source: the text-mode block for one item. -/
def itemLines (item : Element) : List String :=
  let title_text := fieldText item "title"
  let author := fieldText item "author"
  let pub_date := fieldText item "pubDate"
  let link := fieldText item "link"
  let categories_text := String.intercalate ", " (catTexts item)
  let description := fieldText item "description"
  ["Title: " ++ pyStr title_text]
  ++ (if pyTruthy author then ["Author: " ++ pyStr author] else [])
  ++ (if pyTruthy pub_date then ["Published: " ++ pyStr pub_date] else [])
  ++ (if pyTruthy link then ["Link: " ++ pyStr link] else [])
  ++ (if categories_text.isEmpty then [] else ["Categories: " ++ categories_text])
  ++ [""]
  ++ ["Description: " ++ pyStr description]
  ++ [""]

/-- Lines 42 to 108 of the source after the required fields are in hand:
slice the items and render either the JSON document or the text lines. -/
def render (channel : Element) (title link : Option String)
    (limit : Option Int) (json : Bool) : List String :=
  let items := applyLimit (channel.findall "item") limit
  if json then [jdumps (feedJson title link channel items)]
  else channelHeader channel title link ++ (items.map itemLines).flatten

/-- Lines 37 to 108 of the source on an already parsed tree: locate the
channel and the required fields, then render; a missing channel, title or
link makes the corresponding attribute access fail, and that failure is not
the kind the handler at line 109 catches. -/
def rssParserTree (root : Element) (limit : Option Int) (json : Bool) :
    Except PyExc (List String) :=
  match root.find "channel" with
  | none => .error (PyExc.AttributeError noneFindMsg)
  | some channel =>
    match channel.find "title" with
    | none => .error (PyExc.AttributeError noneTextMsg)
    | some titleEl =>
      match channel.find "link" with
      | none => .error (PyExc.AttributeError noneTextMsg)
      | some linkEl => .ok (render channel titleEl.text linkEl.text limit json)

/-- The function `rss_parser` of the source: parse the XML string, wrapping
a parse failure into the application-level `UnhandledException` carrying the
underlying message (lines 109 and 110), then process the tree. -/
def rssParser (xml : String) (limit : Option Int) (json : Bool) :
    Except PyExc (List String) :=
  match fromstring xml with
  | .error e => .error (PyExc.UnhandledException e)
  | .ok root => rssParserTree root limit json

/-- Spec-side text block of one item, following the wording of the spec:
a title line always, then author, published, link and categories lines each
only when the value is non-empty, a blank line, a description line always,
and a blank line. -/
def specItemBlock (titleVal authorVal pubVal linkVal catsVal descVal : String) :
    List String :=
  ["Title: " ++ titleVal]
  ++ (if authorVal = "" then [] else ["Author: " ++ authorVal])
  ++ (if pubVal = "" then [] else ["Published: " ++ pubVal])
  ++ (if linkVal = "" then [] else ["Link: " ++ linkVal])
  ++ (if catsVal = "" then [] else ["Categories: " ++ catsVal])
  ++ [""]
  ++ ["Description: " ++ descVal]
  ++ [""]

/-- Boolean substring test on character lists. -/
def containsSub (needle : List Char) : List Char → Bool
  | [] => needle.isEmpty
  | c :: t => needle.isPrefixOf (c :: t) || containsSub needle t

/-- Malformed input from the spec: an unclosed document. -/
def xmlMalformed : String := "<rss><channel>"

/-- Minimal well-formed feed from the spec round-trip property. -/
def xmlMinimal : String :=
  "<rss><channel><title>T</title><link>L</link><description>D</description></channel></rss>"

/-- Feed with two items, for the limit semantics. -/
def xmlTwoItems : String :=
  "<rss><channel><title>T</title><link>L</link><item><title>A</title></item><item><title>B</title></item></channel></rss>"

/-- Feed whose only channel category has whitespace-only text. -/
def xmlWsCat : String :=
  "<rss><channel><title>T</title><link>L</link><category> </category></channel></rss>"

/-- Feed whose item has a present-but-empty pubDate element. -/
def xmlPubEmpty : String :=
  "<rss><channel><title>T</title><link>L</link><item><pubDate></pubDate></item></channel></rss>"

/-- Feed whose item has no pubDate element at all. -/
def xmlPubMissing : String :=
  "<rss><channel><title>T</title><link>L</link><item></item></channel></rss>"

/-- Feed whose item carries an author, with a non-ASCII channel title. -/
def xmlAuthor : String :=
  "<rss><channel><title>Té</title><link>L</link><item><author>A</author></item></channel></rss>"

/-- Feed whose required channel title and link are present but empty. -/
def xmlEmptyTitleLink : String :=
  "<rss><channel><title></title><link></link></channel></rss>"

/-- JSON document the program produces for `xmlPubEmpty`: the present but
empty pubDate serializes as `null`. -/
def jsonPubEmptyStr : String :=
  "\x7b\n  \"title\": \"T\",\n  \"link\": \"L\",\n  \"description\": \"\",\n  \"items\": [\n    \x7b\n      \"title\": \"\",\n      \"pubDate\": null,\n      \"link\": \"\",\n      \"description\": \"\"\n    \x7d\n  ]\n\x7d"

/-- JSON document the program produces for `xmlPubMissing`: the absent
pubDate serializes as the empty string. -/
def jsonPubMissingStr : String :=
  "\x7b\n  \"title\": \"T\",\n  \"link\": \"L\",\n  \"description\": \"\",\n  \"items\": [\n    \x7b\n      \"title\": \"\",\n      \"pubDate\": \"\",\n      \"link\": \"\",\n      \"description\": \"\"\n    \x7d\n  ]\n\x7d"

/-- JSON document the program produces for `xmlAuthor`: no author key, two
space indentation, the non-ASCII title character emitted literally. -/
def jsonAuthorStr : String :=
  "\x7b\n  \"title\": \"Té\",\n  \"link\": \"L\",\n  \"description\": \"\",\n  \"items\": [\n    \x7b\n      \"title\": \"\",\n      \"pubDate\": \"\",\n      \"link\": \"\",\n      \"description\": \"\"\n    \x7d\n  ]\n\x7d"

/-- JSON document the program produces for the two-item tree below. -/
def jsonTwoItemsStr : String :=
  "\x7b\n  \"title\": \"T\",\n  \"link\": \"L\",\n  \"description\": \"\",\n  \"items\": [\n    \x7b\n      \"title\": \"A\",\n      \"pubDate\": \"\",\n      \"link\": \"\",\n      \"description\": \"\"\n    \x7d,\n    \x7b\n      \"title\": \"B\",\n      \"pubDate\": \"\",\n      \"link\": \"\",\n      \"description\": \"\"\n    \x7d\n  ]\n\x7d"

/-- Channel title element with text. -/
def titleT : Element := Element.mk "title" (some "T") []

/-- Channel link element with text. -/
def linkL : Element := Element.mk "link" (some "L") []

/-- First item of the two-item tree. -/
def itemA : Element := Element.mk "item" none [Element.mk "title" (some "A") []]

/-- Second item of the two-item tree. -/
def itemB : Element := Element.mk "item" none [Element.mk "title" (some "B") []]

/-- Channel of the two-item tree. -/
def chanTwo : Element := Element.mk "channel" none [titleT, linkL, itemA, itemB]

/-- Root of the two-item tree, the parse of `xmlTwoItems`. -/
def rootTwo : Element := Element.mk "rss" none [chanTwo]

/-- Present but empty channel title element. -/
def titleNone : Element := Element.mk "title" none []

/-- Present but empty channel link element. -/
def linkNone : Element := Element.mk "link" none []

/-- Channel whose title and link are present but empty. -/
def chanEmptyTL : Element := Element.mk "channel" none [titleNone, linkNone]

/-- Root of the tree with present but empty title and link. -/
def rootEmptyTL : Element := Element.mk "rss" none [chanEmptyTL]

/-- Root with no channel child, the parse of a bare rss element. -/
def rootNoChan : Element := Element.mk "rss" none []

/-- Channel whose only category has whitespace-only text. -/
def chanWs : Element :=
  Element.mk "channel" none [titleT, linkL, Element.mk "category" (some " ") []]

/-- Item with no pubDate child. -/
def itemNoPub : Element := Element.mk "item" none []

/-- Item with a present but empty pubDate child. -/
def itemEmptyPub : Element := Element.mk "item" none [Element.mk "pubDate" none []]

/-- Helper: a non-empty string has a false emptiness test. -/
theorem aux_isEmpty_false (s : String) (h : s ≠ "") : s.isEmpty = false := by
  cases hh : s.isEmpty with
  | false => rfl
  | true => exact absurd ((String.isEmpty_iff s).mp hh) h

/-- Helper: the boolean emptiness guard agrees with the equational one. -/
theorem aux_isEmpty_if (s : String) (X : List String) :
    (if s.isEmpty then [] else X) = (if s = "" then [] else X) := by
  by_cases h : s = ""
  · subst h
    rw [show ("" : String).isEmpty = true from rfl]
    simp
  · rw [aux_isEmpty_false s h]
    simp [h]

/-- Helper: the negated boolean emptiness test means non-empty. -/
theorem aux_not_isEmpty (s : String) : ((!s.isEmpty) = true) ↔ s ≠ "" := by
  constructor
  · intro h hs
    subst hs
    rw [show ("" : String).isEmpty = true from rfl] at h
    simp at h
  · intro h
    rw [aux_isEmpty_false s h]
    rfl

/-- Helper: a Python-truthiness-guarded line equals the spec-side guarded
line over the collapsed string value. -/
theorem aux_opt_field_line (o : Option String) (pre : String) :
    (if pyTruthy o then [pre ++ pyStr o] else [])
      = (if strOf o = "" then [] else [pre ++ strOf o]) := by
  cases o with
  | none => simp [pyTruthy, strOf]
  | some s =>
    by_cases h : s = ""
    · subst h
      simp [pyTruthy, strOf, show ("" : String).isEmpty = true from rfl]
    · simp [pyTruthy, strOf, pyStr, aux_isEmpty_false s h, h]

/-- Helper: the text of a named child depends only on the `find` result. -/
theorem aux_fieldText_congr (i1 i2 : Element) (t : String)
    (h : i1.find t = i2.find t) : fieldText i1 t = fieldText i2 t := by
  unfold fieldText
  rw [h]

/-- Helper: the tree-level parser never yields the wrapped application
error: the only handler of the program is for the string-level parse. -/
theorem aux_tree_no_wrapped (root : Element) (lim : Option Int) (j : Bool)
    (m : String) :
    rssParserTree root lim j ≠ Except.error (PyExc.UnhandledException m) := by
  unfold rssParserTree
  cases h1 : root.find "channel" with
  | none => simp
  | some c =>
    cases h2 : c.find "title" with
    | none => simp [h2]
    | some te =>
      cases h3 : c.find "link" with
      | none => simp [h2, h3]
      | some le => simp [h2, h3]

/-- C1 (confirmed): an input the XML parse step rejects makes `rss_parser`
fail, for any limit and json flag, with the single application-level
wrapped error kind carrying the underlying parser message (the class the
source raises at lines 109 and 110, spelled `UnhandledException` there, is
the `ParseError` kind of the spec); the wrapped kind arises only from a
parse failure, and the unclosed document of the spec fails that way. -/
theorem c1_parse_failure_wrapped :
    (∀ (xml : String) (lim : Option Int) (j : Bool) (m : String),
        fromstring xml = Except.error m →
        rssParser xml lim j = Except.error (PyExc.UnhandledException m))
    ∧ (∀ (xml : String) (lim : Option Int) (j : Bool) (m : String),
        rssParser xml lim j = Except.error (PyExc.UnhandledException m) →
        fromstring xml = Except.error m)
    ∧ rssParser xmlMalformed none false
        = Except.error (PyExc.UnhandledException "no element found") := by
  refine ⟨?_, ?_, rfl⟩
  · intro xml lim j m h
    simp [rssParser, h]
  · intro xml lim j m h
    unfold rssParser at h
    cases he : fromstring xml with
    | error e =>
      rw [he] at h
      simp only [Except.error.injEq, PyExc.UnhandledException.injEq] at h
      rw [h]
    | ok root =>
      rw [he] at h
      exact absurd h (aux_tree_no_wrapped root lim j m)

/-- C1 witness: the wrapping applied at the concrete malformed input. -/
theorem c1_parse_failure_wrapped_witness :
    rssParser xmlMalformed (some 5) true
      = Except.error (PyExc.UnhandledException "no element found") :=
  c1_parse_failure_wrapped.1 xmlMalformed (some 5) true "no element found" rfl

/-- C2 counterexample: on a two-item feed a negative limit does not yield
zero items — limit minus one keeps the first item, so the output differs
from the zero-item output the claim predicts. -/
theorem c2_limit_counterexample :
    rssParser xmlTwoItems (some (-1)) false
      = Except.ok ["Feed: T", "Link: L", "Title: A", "", "Description: ", ""]
    ∧ rssParser xmlTwoItems (some 0) false = Except.ok ["Feed: T", "Link: L"]
    ∧ (["Feed: T", "Link: L", "Title: A", "", "Description: ", ""] : List String)
        ≠ ["Feed: T", "Link: L"] :=
  ⟨rfl, rfl, by decide⟩

/-- C2 (corrected): limit semantics of the Python prefix slice at line 44.
No limit keeps all items; a limit at least the item count keeps all items;
a non-negative limit keeps the first `limit` items by position; a negative
limit keeps the first `length + limit` items clamped at zero (so zero keeps
nothing, but minus one keeps all but the last, not zero as claimed). -/
theorem c2_limit_python_slice (root c te le : Element)
    (hc : root.find "channel" = some c) (ht : c.find "title" = some te)
    (hl : c.find "link" = some le) (lim : Int) :
    rssParserTree root none false
        = Except.ok (channelHeader c te.text le.text
            ++ ((c.findall "item").map itemLines).flatten)
    ∧ (((c.findall "item").length : Int) ≤ lim →
        rssParserTree root (some lim) false
          = Except.ok (channelHeader c te.text le.text
              ++ ((c.findall "item").map itemLines).flatten))
    ∧ (0 ≤ lim →
        rssParserTree root (some lim) false
          = Except.ok (channelHeader c te.text le.text
              ++ (((c.findall "item").take lim.toNat).map itemLines).flatten))
    ∧ (lim < 0 →
        rssParserTree root (some lim) false
          = Except.ok (channelHeader c te.text le.text
              ++ (((c.findall "item").take
                    (((c.findall "item").length : Int) + lim).toNat).map
                  itemLines).flatten)) := by
  refine ⟨?_, ?_, ?_, ?_⟩
  · simp [rssParserTree, hc, ht, hl, render, applyLimit]
  · intro h
    have h0 : ¬ lim < 0 := by omega
    have h1 : (c.findall "item").length ≤ lim.toNat := by omega
    simp [rssParserTree, hc, ht, hl, render, applyLimit, pySliceTo, h0,
      List.take_of_length_le h1]
  · intro h
    have h0 : ¬ lim < 0 := by omega
    simp [rssParserTree, hc, ht, hl, render, applyLimit, pySliceTo, h0]
  · intro h
    simp [rssParserTree, hc, ht, hl, render, applyLimit, pySliceTo, h]

/-- C2 witness: the corrected slice semantics applied to the concrete
two-item tree at limit minus one, keeping exactly the first item. -/
theorem c2_limit_python_slice_witness :
    rssParserTree rootTwo (some (-1)) false
      = Except.ok ["Feed: T", "Link: L", "Title: A", "", "Description: ", ""] :=
  (c2_limit_python_slice rootTwo chanTwo titleT linkL rfl rfl rfl (-1)).2.2.2
    (by decide)

/-- C3 counterexample: in JSON mode a present-but-empty pubDate and an
absent pubDate do not produce identical output — the former serializes as
null, the latter as the empty string. -/
theorem c3_empty_vs_missing_counterexample :
    rssParser xmlPubEmpty none true = Except.ok [jsonPubEmptyStr]
    ∧ rssParser xmlPubMissing none true = Except.ok [jsonPubMissingStr]
    ∧ jsonPubEmptyStr ≠ jsonPubMissingStr :=
  ⟨rfl, rfl, by decide⟩

/-- C3 (corrected): in text mode a field that is present with empty text is
rendered exactly like an absent field — two items equal everywhere except
an untruthy pubDate render identically, and the two concrete feeds agree —
but in JSON mode an absent field serializes as the empty string while a
present-but-empty field serializes as null. -/
theorem c3_empty_vs_missing :
    (∀ i1 i2 : Element,
        i1.find "title" = i2.find "title" →
        i1.find "author" = i2.find "author" →
        i1.find "link" = i2.find "link" →
        i1.find "description" = i2.find "description" →
        i1.findall "category" = i2.findall "category" →
        pyTruthy (fieldText i1 "pubDate") = false →
        pyTruthy (fieldText i2 "pubDate") = false →
        itemLines i1 = itemLines i2)
    ∧ (∀ it : Element, it.find "pubDate" = none →
        jlookup (itemJson it) "pubDate" = some (JVal.str ""))
    ∧ (∀ it pd : Element, it.find "pubDate" = some pd → pd.text = none →
        jlookup (itemJson it) "pubDate" = some JVal.null)
    ∧ rssParser xmlPubEmpty none false = rssParser xmlPubMissing none false := by
  refine ⟨?_, ?_, ?_, rfl⟩
  · intro i1 i2 h1 h2 h3 h4 h5 h6 h7
    simp only [itemLines]
    rw [aux_fieldText_congr i1 i2 "title" h1, aux_fieldText_congr i1 i2 "author" h2,
      aux_fieldText_congr i1 i2 "link" h3,
      aux_fieldText_congr i1 i2 "description" h4,
      show catTexts i1 = catTexts i2 from by unfold catTexts; rw [h5], h6, h7]
    simp
  · intro it h
    have hj : jfield (it.find "pubDate") = JVal.str "" := by
      rw [h]
      rfl
    unfold itemJson
    rw [hj]
    rfl
  · intro it pd h hpd
    have hj : jfield (it.find "pubDate") = JVal.null := by
      rw [h]
      show optJ pd.text = JVal.null
      rw [hpd]
      rfl
    unfold itemJson
    rw [hj]
    rfl

/-- C3 witness: the JSON value of an absent pubDate at a concrete item. -/
theorem c3_empty_vs_missing_witness :
    jlookup (itemJson itemNoPub) "pubDate" = some (JVal.str "") :=
  c3_empty_vs_missing.2.1 itemNoPub rfl

/-- C4 counterexample: a whitespace-only channel category is not excluded —
the Categories line is emitted carrying the whitespace value, while the
claim predicts the two-line output without it. -/
theorem c4_category_filtering_counterexample :
    rssParser xmlWsCat none false
      = Except.ok ["Feed: T", "Link: L", "Categories:  "]
    ∧ (["Feed: T", "Link: L", "Categories:  "] : List String)
        ≠ ["Feed: T", "Link: L"] :=
  ⟨rfl, by decide⟩

/-- C4 (corrected): category elements whose text is absent or empty are
excluded, but whitespace-only text is truthy in Python and therefore kept;
the kept values preserve document order (a sublist of all category texts),
and a non-empty collection is rendered as the joined Categories line, at
channel level and at item level alike. -/
theorem c4_category_filtering :
    (∀ (ch : Element) (s : String),
        s ∈ catTexts ch ↔ ∃ cE, cE ∈ ch.findall "category" ∧ cE.text = some s ∧ s ≠ "")
    ∧ (∀ ch : Element,
        (catTexts ch).Sublist ((ch.findall "category").filterMap Element.text))
    ∧ (∀ (ch : Element) (t l : Option String), catTexts ch ≠ [] →
        ("Categories: " ++ String.intercalate ", " (catTexts ch))
          ∈ channelHeader ch t l)
    ∧ (∀ it : Element, (String.intercalate ", " (catTexts it)).isEmpty = false →
        ("Categories: " ++ String.intercalate ", " (catTexts it)) ∈ itemLines it) := by
  refine ⟨?_, ?_, ?_, ?_⟩
  · intro ch s
    simp only [catTexts, List.mem_filter, List.mem_filterMap, aux_not_isEmpty]
    constructor
    · rintro ⟨⟨cE, hmem, htext⟩, hne⟩
      exact ⟨cE, hmem, htext, hne⟩
    · rintro ⟨cE, hmem, htext, hne⟩
      exact ⟨⟨cE, hmem, htext⟩, hne⟩
  · intro ch
    exact List.filter_sublist _
  · intro ch t l h
    have hne : (catTexts ch).isEmpty = false := by simp [List.isEmpty_iff, h]
    simp [channelHeader, hne]
  · intro it h
    simp [itemLines, h]

/-- C4 witness: the emitted whitespace category line at the concrete
channel, via the header-emission part of the corrected claim. -/
theorem c4_category_filtering_witness :
    ("Categories:  " : String) ∈ channelHeader chanWs (some "T") (some "L") :=
  c4_category_filtering.2.2.1 chanWs (some "T") (some "L") (by decide)

/-- C5 (confirmed): JSON mode returns a one-element sequence holding the
serialized document; the document keys are title, link, description, items
in that order; every item object has keys title, pubDate, link, description
in that order with no author or category key; and the concrete author feed
shows the serialized form — two-space indentation, the non-ASCII character
emitted literally, no author key in the JSON text while the text-mode
output carries the Author line. -/
theorem c5_json_shape (root c te le : Element) (lim : Option Int)
    (hc : root.find "channel" = some c) (ht : c.find "title" = some te)
    (hl : c.find "link" = some le) :
    rssParserTree root lim true
        = Except.ok [jdumps (feedJson te.text le.text c
            (applyLimit (c.findall "item") lim))]
    ∧ (∀ (tt ll : Option String) (ch : Element) (items : List Element),
        jkeys (feedJson tt ll ch items) = ["title", "link", "description", "items"])
    ∧ (∀ it : Element, jkeys (itemJson it) = ["title", "pubDate", "link", "description"])
    ∧ (∀ it : Element, jlookup (itemJson it) "author" = none)
    ∧ rssParser xmlAuthor none true = Except.ok [jsonAuthorStr]
    ∧ containsSub "author".data jsonAuthorStr.data = false
    ∧ rssParser xmlAuthor none false
        = Except.ok ["Feed: Té", "Link: L", "Title: ", "Author: A", "",
            "Description: ", ""] := by
  refine ⟨?_, fun tt ll ch items => rfl, fun it => rfl, fun it => rfl, rfl,
    by decide, rfl⟩
  simp [rssParserTree, hc, ht, hl, render]

set_option maxRecDepth 8192 in
/-- C5 witness: the serialized document for the concrete two-item tree. -/
theorem c5_json_shape_witness :
    rssParserTree rootTwo none true = Except.ok [jsonTwoItemsStr] :=
  (c5_json_shape rootTwo chanTwo titleT linkL none rfl rfl rfl).1

/-- C6 (confirmed): the text output is the channel header followed, in
document order, by the block of each kept item, and every item block is
exactly the spec block: a Title line always, then Author, Published, Link
and Categories lines each only when the value is non-empty, a blank line,
a Description line always, and a blank line. -/
theorem c6_item_blocks (root c te le : Element) (lim : Option Int)
    (hc : root.find "channel" = some c) (ht : c.find "title" = some te)
    (hl : c.find "link" = some le) :
    rssParserTree root lim false
        = Except.ok (channelHeader c te.text le.text
            ++ ((applyLimit (c.findall "item") lim).map itemLines).flatten)
    ∧ (∀ it : Element,
        itemLines it = specItemBlock (pyStr (fieldText it "title"))
          (strOf (fieldText it "author")) (strOf (fieldText it "pubDate"))
          (strOf (fieldText it "link"))
          (String.intercalate ", " (catTexts it))
          (pyStr (fieldText it "description"))) := by
  refine ⟨?_, ?_⟩
  · simp [rssParserTree, hc, ht, hl, render]
  · intro it
    simp only [itemLines, specItemBlock]
    rw [aux_opt_field_line (fieldText it "author") "Author: ",
      aux_opt_field_line (fieldText it "pubDate") "Published: ",
      aux_opt_field_line (fieldText it "link") "Link: ",
      aux_isEmpty_if (String.intercalate ", " (catTexts it))
        ["Categories: " ++ String.intercalate ", " (catTexts it)]]

/-- C6 witness: the block structure at the concrete two-item tree with a
limit of one kept item. -/
theorem c6_item_blocks_witness :
    rssParserTree rootTwo (some 1) false
      = Except.ok ["Feed: T", "Link: L", "Title: A", "", "Description: ", ""] :=
  (c6_item_blocks rootTwo chanTwo titleT linkL (some 1) rfl rfl rfl).1

/-- C7 (confirmed): the spec round-trip on the minimal feed — exactly the
three channel lines and no item block. -/
theorem c7_minimal_roundtrip :
    rssParser xmlMinimal none false
      = Except.ok ["Feed: T", "Link: L", "Description: D"] := rfl

/-- C8 (confirmed): the parser is a pure function of its three arguments —
the embedding carries no state, so two calls on identical input yield
identical output sequences. -/
theorem c8_deterministic (xml : String) (lim : Option Int) (j : Bool) :
    rssParser xml lim j = rssParser xml lim j := rfl

/-- C9 (confirmed): on well-formed XML whose root has no channel child, or
whose channel lacks a title or a link child, the attribute access on the
missing element fails with an AttributeError that the handler of lines 109
and 110 does not catch, so the failure is never the wrapped
application-level kind. -/
theorem c9_missing_required_attribute_error (xml : String) (root : Element)
    (lim : Option Int) (j : Bool) (hr : fromstring xml = Except.ok root)
    (hmiss : root.find "channel" = none
      ∨ (∃ c, root.find "channel" = some c ∧ c.find "title" = none)
      ∨ (∃ c te, root.find "channel" = some c ∧ c.find "title" = some te
          ∧ c.find "link" = none)) :
    (∃ am, rssParser xml lim j = Except.error (PyExc.AttributeError am))
    ∧ ∀ m, rssParser xml lim j ≠ Except.error (PyExc.UnhandledException m) := by
  have hstep : rssParser xml lim j = rssParserTree root lim j := by
    simp [rssParser, hr]
  constructor
  · rcases hmiss with h | ⟨c, hc, hti⟩ | ⟨c, te, hc, hti, hli⟩
    · exact ⟨noneFindMsg, by rw [hstep]; simp [rssParserTree, h]⟩
    · exact ⟨noneTextMsg, by rw [hstep]; simp [rssParserTree, hc, hti]⟩
    · exact ⟨noneTextMsg, by rw [hstep]; simp [rssParserTree, hc, hti, hli]⟩
  · intro m hm
    rw [hstep] at hm
    exact aux_tree_no_wrapped root lim j m hm

/-- C9 witness: the uncaught attribute failure on a feed with no channel. -/
theorem c9_missing_required_attribute_error_witness :
    (∃ am, rssParser "<rss></rss>" none false
        = Except.error (PyExc.AttributeError am))
    ∧ ∀ m, rssParser "<rss></rss>" none false
        ≠ Except.error (PyExc.UnhandledException m) :=
  c9_missing_required_attribute_error "<rss></rss>" rootNoChan none false rfl
    (Or.inl rfl)

/-- C10 (confirmed): when the channel title and link are present with empty
text, the text output still begins with the Feed and Link lines, rendering
the absent value literally as None. -/
theorem c10_feed_none_rendering (root c te le : Element) (lim : Option Int)
    (hc : root.find "channel" = some c) (ht : c.find "title" = some te)
    (hl : c.find "link" = some le) (hte : te.text = none)
    (hle : le.text = none) :
    ∃ rest, rssParserTree root lim false
      = Except.ok ("Feed: None" :: "Link: None" :: rest) := by
  refine ⟨(if (catTexts c).isEmpty then []
      else ["Categories: " ++ String.intercalate ", " (catTexts c)])
    ++ optLine (c.find "lastBuildDate") "Last Build Date: "
    ++ optLine (c.find "pubDate") "Publish Date: "
    ++ optLine (c.find "language") "Language: "
    ++ optLine (c.find "managingEditor") "Editor: "
    ++ optLine (c.find "description") "Description: "
    ++ ((applyLimit (c.findall "item") lim).map itemLines).flatten, ?_⟩
  simp [rssParserTree, hc, ht, hl, render, channelHeader, hte, hle, pyStr]

/-- C10 witness: the literal None rendering at the concrete tree whose
title and link elements are present but empty. -/
theorem c10_feed_none_rendering_witness :
    ∃ rest, rssParserTree rootEmptyTL none false
      = Except.ok ("Feed: None" :: "Link: None" :: rest) :=
  c10_feed_none_rendering rootEmptyTL chanEmptyTL titleNone linkNone none
    rfl rfl rfl rfl rfl

end RssScraper
